import Mathlib

/-!
Verification of `src/sleep_analysis/classification/ml_algorithms/xgboost_classifier.py`.

Shallow embedding: Python dicts become Lean structures or association lists,
numpy floats become rationals, `XGBClassifier` becomes a record of its
constructor parameters plus an optional fitted state, and the mutable
pipeline objects of a run become explicit values (a heap of pipelines is
modelled, where needed, as a list indexed by position).
-/

namespace SleepAnalysis

/-- A feature table: one row of rational-valued features per epoch. -/
def FeatureTable := List (List ℚ)
deriving DecidableEq, Inhabited

/-- A label table (pandas DataFrame of ground-truth columns): column name to
integer label column. -/
def LabelTable := List (String × List Int)
deriving DecidableEq, Inhabited

/-- Column lookup `ground_truth[col]` in a label table; `none` models the
pandas `KeyError` raised on a missing column. -/
def lookupCol (gt : LabelTable) (c : String) : Option (List Int) :=
  match gt with
  | [] => none
  | (k, v) :: rest => if k = c then some v else lookupCol rest c

/-- The dataset as consumed by `self_optimize`: `get_concat_dataset` yields a
feature table and a label table. -/
structure Dataset where
  features : FeatureTable
  groundTruth : LabelTable
deriving DecidableEq

/-- Errors that can be raised on the embedded paths. `keyError c` models the
pandas `KeyError` raised by `ground_truth[c]` when column `c` is absent (the
failure the spec calls `UnknownTargetColumn`). -/
inductive PyError where
  | keyError (column : String)
deriving DecidableEq, Repr

/-- The state of an `XGBClassifier`: its constructor/`set_params` parameters
(the eight tuned ones plus the optional `objective` keyword) and, when
trained, the data it was fitted on. `fitted = none` is an untrained handle. -/
structure Classifier where
  objective : Option String
  n_estimators : ℚ
  max_depth : ℚ
  reg_alpha : ℚ
  reg_lambda : ℚ
  min_child_weight : ℚ
  gamma : ℚ
  learning_rate : ℚ
  colsample_bytree : ℚ
  fitted : Option (FeatureTable × List Int)
deriving DecidableEq

/-- Cloning (`sklearn.base.clone`) a classifier: identical constructor parameters,
fitted state discarded (a fresh, untrained handle). -/
def cloneClassifier (c : Classifier) : Classifier :=
  { c with fitted := none }

/-- Fitting (`classifier.fit(X, y)`): trains the handle in place on exactly the given
features and labels. -/
def fitClassifier (c : Classifier) (X : FeatureTable) (y : List Int) : Classifier :=
  { c with fitted := some (X, y) }

/-- The default untrained `XGBClassifier(n_jobs=-1)` from the pipeline
constructor default (its xgboost-internal defaults are opaque; zeros here). -/
def defaultClassifier : Classifier :=
  { objective := none, n_estimators := 0, max_depth := 0, reg_alpha := 0,
    reg_lambda := 0, min_child_weight := 0, gamma := 0, learning_rate := 0,
    colsample_bytree := 0, fitted := none }

/-- Construction (`XGBPipeline.__init__`): stores the modality, the eight hyperparameters,
the classifier handle and the classification type, unconditionally. -/
structure XGBPipeline where
  modality : List String
  n_estimators : ℚ := 100
  max_depth : ℚ := 10
  reg_alpha : ℚ := 0
  reg_lambda : ℚ := 0
  min_child_weight : ℚ := 0
  gamma : ℚ := 0
  learning_rate : ℚ := 5 / 1000
  colsample_bytree : ℚ := 1 / 10
  classifier : Classifier := defaultClassifier
  classification_type : String := "binary"
deriving DecidableEq

/-- Source `XGBPipeline._set_classifier_params`: copies the pipeline's eight
hyperparameter fields onto the classifier via `set_params` and returns it.
The source performs no range or type check on any value. -/
def XGBPipeline.set_classifier_params (p : XGBPipeline) (c : Classifier) : Classifier :=
  { c with
    n_estimators := p.n_estimators
    max_depth := p.max_depth
    reg_alpha := p.reg_alpha
    reg_lambda := p.reg_lambda
    min_child_weight := p.min_child_weight
    gamma := p.gamma
    learning_rate := p.learning_rate
    colsample_bytree := p.colsample_bytree }

/-- Source `XGBPipeline.self_optimize(dataset)`: concatenates the dataset, clones the
classifier handle, writes the pipeline's hyperparameters onto the clone, and
fits it on the whole feature table against the target column — `"sleep"` when
`classification_type == "binary"`, else the column named by
`classification_type`. A missing column raises (models the pandas KeyError). -/
def XGBPipeline.self_optimize (p : XGBPipeline) (ds : Dataset) : Except PyError XGBPipeline :=
  let features := ds.features
  let ground_truth := ds.groundTruth
  let c := p.set_classifier_params (cloneClassifier p.classifier)
  if p.classification_type = "binary" then
    match lookupCol ground_truth "sleep" with
    | some y => .ok { p with classifier := fitClassifier c features y }
    | none => .error (.keyError "sleep")
  else
    match lookupCol ground_truth p.classification_type with
    | some y => .ok { p with classifier := fitClassifier c features y }
    | none => .error (.keyError p.classification_type)

/-- The `tpcp` clone of a pipeline: same constructor parameters with the
classifier parameter itself cloned to an untrained handle (clones share no
mutable classifier state with the original). -/
def clonePipeline (p : XGBPipeline) : XGBPipeline :=
  { p with classifier := cloneClassifier p.classifier }

/-- The target column chosen by the label selection policy of
`self_optimize`. -/
def targetColumn (classification_type : String) : String :=
  if classification_type = "binary" then "sleep" else classification_type

/-! ## Study identity (`XGBOptuna.optimize`, study creation) -/

/-- The optuna study name built at study creation:
`"XGBoostOptuna" + "|".join(self.modality)`. It uses the modality list in its
given order and does not mention the classification type. -/
def studyName (modality : List String) : String :=
  "XGBoostOptuna" ++ String.intercalate "|" modality

/-- The sqlite storage key built at study creation:
`"sqlite:////" + db_path + "/xgb_" + "_".join(self.modality) + "_" +
self.classification_type + ".db"`. (`get_db_path` is outside this module and
is passed in as `db_path`.) -/
def storageKey (db_path : String) (modality : List String) (classification_type : String) :
    String :=
  "sqlite:////" ++ db_path ++ "/xgb_" ++ String.intercalate "_" modality ++ "_"
    ++ classification_type ++ ".db"

/-- The study identity: the pair of study name and storage key the persisted
study is resolved under. -/
def studyIdentity (db_path : String) (modality : List String) (classification_type : String) :
    String × String :=
  (studyName modality, storageKey db_path modality classification_type)

/-! ## Trial parameter sampling (the `objective` closure) -/

/-- The hyperparameter assignment sampled for one trial: the eight searched
parameters, integers for the six `suggest_int` calls and rationals for the two
`suggest_float` calls. -/
structure SampledParams where
  n_estimators : Int
  max_depth : Int
  reg_alpha : Int
  reg_lambda : Int
  min_child_weight : Int
  gamma : Int
  learning_rate : ℚ
  colsample_bytree : ℚ
deriving DecidableEq, Repr

/-- Modelled from the spec: `trial.suggest_int(name, low, high)` of the
external sampler returns an integer inside the inclusive range `[low, high]`.
The raw draw of the (seeded, history-dependent) sampler is abstracted as an
arbitrary integer mapped into the range. -/
def suggest_int (raw : Int) (low high : Int) : Int :=
  if low ≤ high then low + raw.emod (high - low + 1) else low

/-- Modelled from the spec: `trial.suggest_float(name, low, high)` of the
external sampler returns a value inside the inclusive range `[low, high]`;
the raw draw is abstracted as an arbitrary rational clamped into the range. -/
def suggest_float (raw : ℚ) (low high : ℚ) : ℚ :=
  if raw < low then low else if high < raw then high else raw

/-- The raw draws an optuna trial's sampler provides, one per named
parameter. -/
structure TrialDraws where
  intRaw : String → Int
  floatRaw : String → ℚ

/-- Source `paras_to_be_searched` in the `objective` closure: one `suggest` call per
parameter, with the range endpoints of the source. -/
def paras_to_be_searched (t : TrialDraws) : SampledParams :=
  { n_estimators := suggest_int (t.intRaw "n_estimators") 200 400
    max_depth := suggest_int (t.intRaw "max_depth") 5 25
    reg_alpha := suggest_int (t.intRaw "reg_alpha") 0 25
    reg_lambda := suggest_int (t.intRaw "reg_lambda") 0 25
    min_child_weight := suggest_int (t.intRaw "min_child_weight") 0 25
    gamma := suggest_int (t.intRaw "gamma") 5 25
    learning_rate := suggest_float (t.floatRaw "learning_rate") (1 / 100) (1 / 10)
    colsample_bytree := suggest_float (t.floatRaw "colsample_bytree") (1 / 10) 1 }

/-- Source `pipeline.set_params(**paras_to_be_searched)`: writes the eight searched
values onto the pipeline's hyperparameter fields (the classifier parameter is
not among the keys, so it is untouched). -/
def setSearchedParams (p : XGBPipeline) (sp : SampledParams) : XGBPipeline :=
  { p with
    n_estimators := (sp.n_estimators : ℚ)
    max_depth := (sp.max_depth : ℚ)
    reg_alpha := (sp.reg_alpha : ℚ)
    reg_lambda := (sp.reg_lambda : ℚ)
    min_child_weight := (sp.min_child_weight : ℚ)
    gamma := (sp.gamma : ℚ)
    learning_rate := sp.learning_rate
    colsample_bytree := sp.colsample_bytree }

/-! ## The objective value of a trial -/

/-- The arithmetic mean `np.mean` on a list of rationals. -/
def npMean (xs : List ℚ) : ℚ := xs.sum / xs.length

/-- The result table of `tpcp.validate.cross_validate`, keyed by metric name:
for each named metric, the per-fold values. The orchestrator itself is
external; a run of it is a function from the pipeline template and the fold
count to such a table. -/
def CVRun := XGBPipeline → Nat → String → List ℚ

/-- The body of the `objective` closure: sample the eight parameters, clone
the pipeline template and set them on the clone, cross-validate the clone with
`cv=5`, and return `np.mean(results["test_mcc"])`. -/
def objectiveBody (cv : CVRun) (template : XGBPipeline) (t : TrialDraws) : ℚ :=
  let paras := paras_to_be_searched t
  let temp_pipeline := setSearchedParams (clonePipeline template) paras
  npMean (cv temp_pipeline 5 "test_mcc")

/-! ## The persisted study log and trial records -/

/-- Terminal and running states of a trial. -/
inductive TrialStatus where
  | running
  | completed
  | pruned
  | failed
deriving DecidableEq, Repr

/-- One record of the persisted study log: the sampled parameters, the
outcome status, and the objective value (present iff the trial completed). -/
structure TrialRecord where
  params : SampledParams
  status : TrialStatus
  value : Option ℚ
deriving DecidableEq

/-- Modelled from the spec: `study.optimize(objective, n_trials=k)` of the
external study runs `k` new trials and appends one record per trial to the
persisted log, leaving prior records untouched (§4.4 `run`). `newTrial i` is
the record produced by the `i`-th new trial's execution. -/
def studyOptimize (log : List TrialRecord) (nTrials : Nat)
    (newTrial : Nat → TrialRecord) : List TrialRecord :=
  log ++ (List.range nTrials).map newTrial

/-- The trial count `XGBOptuna.optimize` passes to `study.optimize`: the
literal `1` at the call site, taken from no configuration. -/
def xgbOptunaNTrials : Nat := 1

/-- The study-running step of one `XGBOptuna.optimize` invocation:
`study.optimize(objective, n_trials=1, ...)` applied to the loaded log. -/
def xgbOptunaStudyStep (log : List TrialRecord) (newTrial : Nat → TrialRecord) :
    List TrialRecord :=
  studyOptimize log xgbOptunaNTrials newTrial

/-- The objective value a record contributes to best-trial comparison; a
record without a value (pruned/failed/running) ranks as the worst value. -/
def objVal (t : TrialRecord) : ℚ := t.value.getD 0

/-- Modelled from the spec: the external study's best-trial selection under
`direction="maximize"` (what `study.best_params` reads): among the completed
trials, the one with the maximal objective value; `none` when no trial
completed (§4.4 `best_trial`, `NoCompletedTrials`). -/
def bestTrial (trials : List TrialRecord) : Option TrialRecord :=
  List.argmax objVal (trials.filter (fun t => t.status = .completed))

/-! ## The finalize step of `XGBOptuna.optimize` -/

/-- The fresh classifier built for the best parameters:
`XGBClassifier(objective="binary:logistic", **study.best_params)` when the
classification type is `"binary"`, `XGBClassifier(**study.best_params)`
otherwise. It is untrained. -/
def bestClassifierFor (classification_type : String) (best : SampledParams) : Classifier :=
  if classification_type = "binary" then
    { objective := some "binary:logistic"
      n_estimators := (best.n_estimators : ℚ), max_depth := (best.max_depth : ℚ)
      reg_alpha := (best.reg_alpha : ℚ), reg_lambda := (best.reg_lambda : ℚ)
      min_child_weight := (best.min_child_weight : ℚ), gamma := (best.gamma : ℚ)
      learning_rate := best.learning_rate, colsample_bytree := best.colsample_bytree
      fitted := none }
  else
    { objective := none
      n_estimators := (best.n_estimators : ℚ), max_depth := (best.max_depth : ℚ)
      reg_alpha := (best.reg_alpha : ℚ), reg_lambda := (best.reg_lambda : ℚ)
      min_child_weight := (best.min_child_weight : ℚ), gamma := (best.gamma : ℚ)
      learning_rate := best.learning_rate, colsample_bytree := best.colsample_bytree
      fitted := none }

/-- Source `pipeline.set_params(**best_parameters)` where `best_parameters` is
`study.best_params` extended with the `classifier` key: writes the eight best
values and replaces the classifier handle. -/
def setBestParams (p : XGBPipeline) (best : SampledParams) (c : Classifier) : XGBPipeline :=
  { setSearchedParams p best with classifier := c }

/-- The tail of `XGBOptuna.optimize` after the search: build the fresh best
classifier, clone the template pipeline, set the best parameters on the clone,
and refit it on the whole dataset via `Optimize(...).optimize(dataset)`
(which runs `self_optimize`); the result is `optimized_pipeline_`. -/
def optimizeFinal (template : XGBPipeline) (classification_type : String)
    (best : SampledParams) (ds : Dataset) : Except PyError XGBPipeline :=
  let bestClassifier := bestClassifierFor classification_type best
  (setBestParams (clonePipeline template) best bestClassifier).self_optimize ds

/-! ## A heap of pipeline objects (state isolation across clones) -/

/-- Python-side object identity for the pipelines alive during a search: a
heap of pipeline objects addressed by position. `tpcp` clone at address `i`
allocates a new object at the end of the heap. -/
def cloneAt (h : List XGBPipeline) (i : Nat) : List XGBPipeline :=
  match h[i]? with
  | some p => h ++ [clonePipeline p]
  | none => h

/-- Fitting (`self_optimize`) the pipeline object at address `i` on a dataset
updates only that object; on a raised error the object is left unchanged
(the `self.classifier` assignment never executes). -/
def fitAt (h : List XGBPipeline) (i : Nat) (ds : Dataset) : List XGBPipeline :=
  match h[i]? with
  | some p =>
    match p.self_optimize ds with
    | .ok q => h.set i q
    | .error _ => h
  | none => h

/-- The `pipeline.classifier.predict` output as a function of the object's state:
predictions are fully determined by the fitted classifier state (`none` models
the not-fitted failure). -/
def predictAt (h : List XGBPipeline) (i : Nat) : Option (FeatureTable × List Int) :=
  match h[i]? with
  | some p => p.classifier.fitted
  | none => none

/-! ## The declared search ranges, and the validating assignment of the spec -/

/-- The declared valid range of each hyperparameter — the only ranges declared
anywhere in the source, namely the search ranges of the `objective` closure. -/
def paramsInDeclaredRange (p : XGBPipeline) : Prop :=
  200 ≤ p.n_estimators ∧ p.n_estimators ≤ 400 ∧
  5 ≤ p.max_depth ∧ p.max_depth ≤ 25 ∧
  0 ≤ p.reg_alpha ∧ p.reg_alpha ≤ 25 ∧
  0 ≤ p.reg_lambda ∧ p.reg_lambda ≤ 25 ∧
  0 ≤ p.min_child_weight ∧ p.min_child_weight ≤ 25 ∧
  5 ≤ p.gamma ∧ p.gamma ≤ 25 ∧
  1 / 100 ≤ p.learning_rate ∧ p.learning_rate ≤ 1 / 10 ∧
  1 / 10 ≤ p.colsample_bytree ∧ p.colsample_bytree ≤ 1

instance (p : XGBPipeline) : Decidable (paramsInDeclaredRange p) := by
  unfold paramsInDeclaredRange; infer_instance

/-- The validating assignment as the spec words it (§4.1 `configure`): accept
the values only when each lies in its declared range, otherwise fail with
`InvalidHyperparameter`. Stated from the spec, for comparison with the
source's `set_classifier_params`, which the source makes total. -/
def configureSpec (p : XGBPipeline) (c : Classifier) : Except String Classifier :=
  if paramsInDeclaredRange p then .ok (p.set_classifier_params c) else .error "InvalidHyperparameter"

/-! ## Concrete values used by witnesses and counterexamples -/

/-- A pipeline with an out-of-range hyperparameter (`max_depth = -5`, outside
the declared range `[5, 25]`). -/
def badPipeline : XGBPipeline :=
  { modality := ["activity"], max_depth := -5 }

/-- A concrete pipeline template (binary classification, default values). -/
def demoPipeline : XGBPipeline :=
  { modality := ["activity"] }

/-- A concrete sampled hyperparameter assignment. -/
def demoParams : SampledParams :=
  { n_estimators := 300, max_depth := 10, reg_alpha := 1, reg_lambda := 2,
    min_child_weight := 3, gamma := 6, learning_rate := 1 / 20, colsample_bytree := 1 / 2 }

/-- A second concrete sampled hyperparameter assignment. -/
def demoParams2 : SampledParams :=
  { n_estimators := 250, max_depth := 7, reg_alpha := 0, reg_lambda := 0,
    min_child_weight := 0, gamma := 5, learning_rate := 1 / 50, colsample_bytree := 1 }

/-- A completed trial record at objective 4/5. -/
def demoCompleted : TrialRecord := { params := demoParams, status := .completed, value := some (4 / 5) }

/-- A pruned trial record (objective undefined). -/
def demoPruned : TrialRecord := { params := demoParams2, status := .pruned, value := none }

/-- A study log with one completed and one pruned trial. -/
def demoTrials : List TrialRecord := [demoCompleted, demoPruned]

/-- A concrete dataset whose label table has the `"sleep"` column. -/
def demoDataset : Dataset :=
  { features := [[1, 2], [3, 4]], groundTruth := [("sleep", [1, 0])] }

/-- A concrete dataset whose label table lacks the `"sleep"` column. -/
def demoDatasetMissing : Dataset :=
  { features := [[1, 2]], groundTruth := [("5stage", [2])] }

/-- A concrete cross-validation run: five per-fold values for every metric. -/
def demoCV : CVRun := fun _ _ _ => [1 / 2, 1 / 4, 3 / 4, 1, 0]

/-- Concrete raw sampler draws. -/
def demoDraws : TrialDraws := { intRaw := fun _ => 0, floatRaw := fun _ => 0 }

/-! # Theorems -/

/-- Any `suggest_int` result lies in the inclusive range. -/
lemma suggest_int_range (raw : Int) {low high : Int} (h : low ≤ high) :
    low ≤ suggest_int raw low high ∧ suggest_int raw low high ≤ high := by
  unfold suggest_int
  rw [if_pos h]
  have hpos : 0 < high - low + 1 := by omega
  have h1 : 0 ≤ raw.emod (high - low + 1) := Int.emod_nonneg raw (by omega)
  have h2 : raw.emod (high - low + 1) < high - low + 1 := Int.emod_lt_of_pos raw hpos
  omega

/-- Any `suggest_float` result lies in the inclusive range. -/
lemma suggest_float_range (raw : ℚ) {low high : ℚ} (h : low ≤ high) :
    low ≤ suggest_float raw low high ∧ suggest_float raw low high ≤ high := by
  unfold suggest_float
  split_ifs with h1 h2
  · exact ⟨le_refl low, h⟩
  · exact ⟨h, le_refl high⟩
  · exact ⟨le_of_not_lt h1, le_of_not_lt h2⟩

/-- C9: every trial's sampled HyperparameterSet lies within the declared
search ranges of the `objective` closure: `n_estimators ∈ [200, 400]`,
`max_depth ∈ [5, 25]`, `reg_alpha ∈ [0, 25]`, `reg_lambda ∈ [0, 25]`,
`min_child_weight ∈ [0, 25]`, `gamma ∈ [5, 25]` (all integer-valued),
`learning_rate ∈ [0.01, 0.1]` and `colsample_bytree ∈ [0.1, 1]` (rationals),
for every raw draw of the sampler. -/
theorem sampled_params_in_search_ranges (t : TrialDraws) :
    (200 ≤ (paras_to_be_searched t).n_estimators ∧ (paras_to_be_searched t).n_estimators ≤ 400) ∧
    (5 ≤ (paras_to_be_searched t).max_depth ∧ (paras_to_be_searched t).max_depth ≤ 25) ∧
    (0 ≤ (paras_to_be_searched t).reg_alpha ∧ (paras_to_be_searched t).reg_alpha ≤ 25) ∧
    (0 ≤ (paras_to_be_searched t).reg_lambda ∧ (paras_to_be_searched t).reg_lambda ≤ 25) ∧
    (0 ≤ (paras_to_be_searched t).min_child_weight ∧
      (paras_to_be_searched t).min_child_weight ≤ 25) ∧
    (5 ≤ (paras_to_be_searched t).gamma ∧ (paras_to_be_searched t).gamma ≤ 25) ∧
    (1 / 100 ≤ (paras_to_be_searched t).learning_rate ∧
      (paras_to_be_searched t).learning_rate ≤ 1 / 10) ∧
    (1 / 10 ≤ (paras_to_be_searched t).colsample_bytree ∧
      (paras_to_be_searched t).colsample_bytree ≤ 1) := by
  have h1 := suggest_int_range (t.intRaw "n_estimators") (show (200 : Int) ≤ 400 by norm_num)
  have h2 := suggest_int_range (t.intRaw "max_depth") (show (5 : Int) ≤ 25 by norm_num)
  have h3 := suggest_int_range (t.intRaw "reg_alpha") (show (0 : Int) ≤ 25 by norm_num)
  have h4 := suggest_int_range (t.intRaw "reg_lambda") (show (0 : Int) ≤ 25 by norm_num)
  have h5 := suggest_int_range (t.intRaw "min_child_weight") (show (0 : Int) ≤ 25 by norm_num)
  have h6 := suggest_int_range (t.intRaw "gamma") (show (5 : Int) ≤ 25 by norm_num)
  have h7 := suggest_float_range (t.floatRaw "learning_rate")
    (show (1 : ℚ) / 100 ≤ 1 / 10 by norm_num)
  have h8 := suggest_float_range (t.floatRaw "colsample_bytree")
    (show (1 : ℚ) / 10 ≤ 1 by norm_num)
  exact ⟨h1, h2, h3, h4, h5, h6, h7, h8⟩

/-- C10: the finalized classifier is constructed with
`objective="binary:logistic"` exactly when the classification type is
`"binary"`; otherwise no objective keyword is set. In both cases its eight
parameters are the best trial's parameters and it is untrained. -/
theorem finalized_classifier_objective (ct : String) (best : SampledParams) :
    (ct = "binary" → (bestClassifierFor ct best).objective = some "binary:logistic") ∧
    (ct ≠ "binary" → (bestClassifierFor ct best).objective = none) ∧
    (bestClassifierFor ct best).n_estimators = (best.n_estimators : ℚ) ∧
    (bestClassifierFor ct best).max_depth = (best.max_depth : ℚ) ∧
    (bestClassifierFor ct best).reg_alpha = (best.reg_alpha : ℚ) ∧
    (bestClassifierFor ct best).reg_lambda = (best.reg_lambda : ℚ) ∧
    (bestClassifierFor ct best).min_child_weight = (best.min_child_weight : ℚ) ∧
    (bestClassifierFor ct best).gamma = (best.gamma : ℚ) ∧
    (bestClassifierFor ct best).learning_rate = best.learning_rate ∧
    (bestClassifierFor ct best).colsample_bytree = best.colsample_bytree ∧
    (bestClassifierFor ct best).fitted = none := by
  unfold bestClassifierFor
  by_cases hct : ct = "binary" <;> simp [hct]

/-- Witness for C10 at the two concrete classification types. -/
theorem finalized_classifier_objective_witness :
    (bestClassifierFor "binary" demoParams).objective = some "binary:logistic" ∧
    (bestClassifierFor "5stage" demoParams).objective = none :=
  ⟨(finalized_classifier_objective "binary" demoParams).1 rfl,
   (finalized_classifier_objective "5stage" demoParams).2.1 (by decide)⟩

/-- C3 counterexample: the out-of-range assignment `max_depth = -5` is
accepted and stored verbatim by the source's parameter assignment — no
validation occurs and nothing fails, while the spec's validating `configure`
would reject the same input with `InvalidHyperparameter`. -/
theorem set_classifier_params_no_validation :
    ¬ paramsInDeclaredRange badPipeline ∧
    (badPipeline.set_classifier_params defaultClassifier).max_depth = -5 ∧
    configureSpec badPipeline defaultClassifier = .error "InvalidHyperparameter" := by
  have hbad : ¬ paramsInDeclaredRange badPipeline := by
    unfold paramsInDeclaredRange badPipeline
    norm_num
  refine ⟨hbad, rfl, ?_⟩
  unfold configureSpec
  rw [if_neg hbad]

/-- C3 amended: assigning a HyperparameterSet to the classifier stores every
value verbatim, with no range or type validation and no failure path, for
every input configuration (out-of-range values included); the classifier's
other state is untouched. -/
theorem set_classifier_params_stores_verbatim (p : XGBPipeline) (c : Classifier) :
    (p.set_classifier_params c).n_estimators = p.n_estimators ∧
    (p.set_classifier_params c).max_depth = p.max_depth ∧
    (p.set_classifier_params c).reg_alpha = p.reg_alpha ∧
    (p.set_classifier_params c).reg_lambda = p.reg_lambda ∧
    (p.set_classifier_params c).min_child_weight = p.min_child_weight ∧
    (p.set_classifier_params c).gamma = p.gamma ∧
    (p.set_classifier_params c).learning_rate = p.learning_rate ∧
    (p.set_classifier_params c).colsample_bytree = p.colsample_bytree ∧
    (p.set_classifier_params c).objective = c.objective ∧
    (p.set_classifier_params c).fitted = c.fitted := by
  refine ⟨rfl, rfl, rfl, rfl, rfl, rfl, rfl, rfl, rfl, rfl⟩

/-- C1 counterexample: one invocation of `XGBOptuna.optimize` appends exactly
one trial record to the study log — for the spec's 3-trial search it appends
1 record, not 3, because `n_trials=1` is hardcoded at the `study.optimize`
call. -/
theorem optuna_single_trial_cex :
    (xgbOptunaStudyStep [] (fun _ => demoCompleted)).length = 1 ∧
    (xgbOptunaStudyStep [] (fun _ => demoCompleted)).length ≠ 3 := by
  constructor <;> simp [xgbOptunaStudyStep, studyOptimize, xgbOptunaNTrials]

/-- C1 amended: one invocation of `XGBOptuna.optimize` runs exactly one new
trial — `n_trials` is the literal `1`, taken from no configuration — sampling
one HyperparameterSet for it and appending exactly one trial record to the
persisted study log, prior records preserved. -/
theorem optuna_step_appends_one (log : List TrialRecord) (f : Nat → TrialRecord) :
    xgbOptunaNTrials = 1 ∧
    xgbOptunaStudyStep log f = log ++ [f 0] ∧
    (xgbOptunaStudyStep log f).length = log.length + 1 := by
  refine ⟨rfl, ?_, ?_⟩ <;>
    simp [xgbOptunaStudyStep, studyOptimize, xgbOptunaNTrials, List.range_succ]

/-- Different classification types give different storage keys (the type
sits between a common prefix and the fixed `".db"` suffix). -/
lemma storageKey_ct_inj (db : String) (m : List String) {ct1 ct2 : String}
    (h : storageKey db m ct1 = storageKey db m ct2) : ct1 = ct2 := by
  unfold storageKey at h
  have hd := congrArg String.data h
  simp only [String.data_append, List.append_assoc] at hd
  replace hd := List.append_cancel_left hd
  replace hd := List.append_cancel_left hd
  replace hd := List.append_cancel_left hd
  replace hd := List.append_cancel_left hd
  replace hd := List.append_cancel_left hd
  replace hd := List.append_cancel_right hd
  exact String.ext hd

/-- C2 counterexample: the same modalities in a different order resolve to a
different study identity — the source joins the modality list as given and
never sorts it. -/
theorem study_identity_not_order_invariant :
    studyIdentity "db" ["activity", "hr"] "binary" ≠
      studyIdentity "db" ["hr", "activity"] "binary" := by
  decide

/-- C2 amended: the study identity is a deterministic function of the
modality list in its given order (not sorted) together with the
classification mode; two different classification modes with the same
modalities resolve to different identities (their storage keys differ), while
the study-name component omits the mode and is shared across modes. -/
theorem study_identity_amended (db : String) (m : List String) (ct1 ct2 : String)
    (h : ct1 ≠ ct2) :
    (studyIdentity db m ct1).1 = (studyIdentity db m ct2).1 ∧
    studyIdentity db m ct1 ≠ studyIdentity db m ct2 := by
  refine ⟨rfl, fun hc => h ?_⟩
  exact storageKey_ct_inj db m (congrArg Prod.snd hc)

/-- Witness for C2's amended statement at concrete modes. -/
theorem study_identity_amended_witness :
    ("binary" ≠ "5stage") ∧
    ((studyIdentity "db" ["activity"] "binary").1 = (studyIdentity "db" ["activity"] "5stage").1 ∧
      studyIdentity "db" ["activity"] "binary" ≠ studyIdentity "db" ["activity"] "5stage") :=
  ⟨by decide, study_identity_amended "db" ["activity"] "binary" "5stage" (by decide)⟩

/-- C6: for every trial, the trial's scalar objective value is the arithmetic
mean of the per-fold `test_mcc` values returned by the 5-fold cross-validation
of the cloned, configured pipeline: the objective times the number of folds
equals the sum of the per-fold `test_mcc` values. -/
theorem objective_is_mean_test_mcc (cv : CVRun) (template : XGBPipeline) (t : TrialDraws)
    (h : cv (setSearchedParams (clonePipeline template) (paras_to_be_searched t)) 5 "test_mcc"
      ≠ []) :
    objectiveBody cv template t *
      ((cv (setSearchedParams (clonePipeline template) (paras_to_be_searched t)) 5
        "test_mcc").length : ℚ) =
      (cv (setSearchedParams (clonePipeline template) (paras_to_be_searched t)) 5
        "test_mcc").sum := by
  unfold objectiveBody npMean
  have hlen : ((cv (setSearchedParams (clonePipeline template) (paras_to_be_searched t)) 5
      "test_mcc").length : ℚ) ≠ 0 := by
    simpa [List.length_eq_zero] using h
  exact div_mul_cancel₀ _ hlen

/-- Witness for C6 at a concrete cross-validation run with five folds. -/
theorem objective_is_mean_test_mcc_witness :
    (demoCV (setSearchedParams (clonePipeline demoPipeline) (paras_to_be_searched demoDraws)) 5
      "test_mcc" ≠ []) ∧
    objectiveBody demoCV demoPipeline demoDraws *
      ((demoCV (setSearchedParams (clonePipeline demoPipeline) (paras_to_be_searched demoDraws))
        5 "test_mcc").length : ℚ) =
      (demoCV (setSearchedParams (clonePipeline demoPipeline) (paras_to_be_searched demoDraws))
        5 "test_mcc").sum :=
  ⟨by simp [demoCV], objective_is_mean_test_mcc demoCV demoPipeline demoDraws (by simp [demoCV])⟩

/-- Running `self_optimize` on a dataset whose label table has the target column:
the classifier is fitted on the whole feature table against exactly that
column. -/
lemma self_optimize_ok (p : XGBPipeline) (ds : Dataset) (y : List Int)
    (hy : lookupCol ds.groundTruth (targetColumn p.classification_type) = some y) :
    p.self_optimize ds = .ok { p with classifier := fitClassifier (p.set_classifier_params (cloneClassifier p.classifier)) ds.features y } := by
  by_cases hb : p.classification_type = "binary"
  · simp only [targetColumn, hb, if_pos] at hy
    simp [XGBPipeline.self_optimize, hb, hy]
  · simp only [targetColumn, hb, if_neg, if_false] at hy
    simp [XGBPipeline.self_optimize, hb, hy]

/-- Running `self_optimize` on a dataset whose label table lacks the target column
raises the key-lookup error for exactly that column. -/
lemma self_optimize_missing (p : XGBPipeline) (ds : Dataset)
    (hn : lookupCol ds.groundTruth (targetColumn p.classification_type) = none) :
    p.self_optimize ds = .error (.keyError (targetColumn p.classification_type)) := by
  by_cases hb : p.classification_type = "binary"
  · simp only [targetColumn, hb, if_pos] at hn
    simp [XGBPipeline.self_optimize, targetColumn, hb, hn]
  · simp only [targetColumn, hb, if_neg, if_false] at hn
    simp [XGBPipeline.self_optimize, targetColumn, hb, hn]

/-- C4: `self_optimize` trains on the label column `"sleep"` when the
classification type is `"binary"` and on the column named by the
classification type otherwise; when that column is absent from the label
table it fails, with the lookup error naming that column. -/
theorem self_optimize_target_column (p : XGBPipeline) (ds : Dataset) :
    (∀ y, lookupCol ds.groundTruth (targetColumn p.classification_type) = some y →
      p.self_optimize ds = .ok { p with classifier := fitClassifier (p.set_classifier_params (cloneClassifier p.classifier)) ds.features y }) ∧
    (lookupCol ds.groundTruth (targetColumn p.classification_type) = none →
      p.self_optimize ds = .error (.keyError (targetColumn p.classification_type))) ∧
    targetColumn "binary" = "sleep" ∧
    (p.classification_type ≠ "binary" →
      targetColumn p.classification_type = p.classification_type) :=
  ⟨fun y hy => self_optimize_ok p ds y hy,
   fun hn => self_optimize_missing p ds hn,
   rfl,
   fun hb => if_neg hb⟩

/-- Witness for C4: the concrete binary pipeline trains on the `"sleep"`
column when present and fails on a dataset without it. -/
theorem self_optimize_target_column_witness :
    demoPipeline.self_optimize demoDataset = .ok { demoPipeline with classifier := fitClassifier (demoPipeline.set_classifier_params (cloneClassifier demoPipeline.classifier)) demoDataset.features [1, 0] } ∧
    demoPipeline.self_optimize demoDatasetMissing = .error (.keyError "sleep") := by
  constructor
  · exact (self_optimize_target_column demoPipeline demoDataset).1 [1, 0] (by decide)
  · exact (self_optimize_target_column demoPipeline demoDatasetMissing).2.1 (by decide)

/-- C5: when the dataset has the target column, the finalize step of
`XGBOptuna.optimize` returns `optimized_pipeline_` as a fresh clone of the
template whose eight hyperparameters equal exactly the best trial's
parameters, whose classifier was rebuilt from scratch for the best parameters
and fitted on the entire dataset (no train/test split), and whose result is
independent of the template's classifier state — no fold-level fitted state
from the search phase is reused. -/
theorem optimize_final_fresh_full_fit (template : XGBPipeline) (ct : String)
    (best : SampledParams) (ds : Dataset) (y : List Int)
    (hy : lookupCol ds.groundTruth (targetColumn template.classification_type) = some y) :
    ∃ q, optimizeFinal template ct best ds = .ok q ∧
      q.n_estimators = (best.n_estimators : ℚ) ∧
      q.max_depth = (best.max_depth : ℚ) ∧
      q.reg_alpha = (best.reg_alpha : ℚ) ∧
      q.reg_lambda = (best.reg_lambda : ℚ) ∧
      q.min_child_weight = (best.min_child_weight : ℚ) ∧
      q.gamma = (best.gamma : ℚ) ∧
      q.learning_rate = best.learning_rate ∧
      q.colsample_bytree = best.colsample_bytree ∧
      q.classifier.fitted = some (ds.features, y) ∧
      q.modality = template.modality ∧
      q.classification_type = template.classification_type ∧
      q.classifier.objective = (bestClassifierFor ct best).objective ∧
      (∀ c' : Classifier,
        optimizeFinal { template with classifier := c' } ct best ds =
          optimizeFinal template ct best ds) := by
  have h0 := self_optimize_ok
    (setBestParams (clonePipeline template) best (bestClassifierFor ct best)) ds y hy
  exact ⟨_, h0, rfl, rfl, rfl, rfl, rfl, rfl, rfl, rfl, rfl, rfl, rfl, rfl, fun c' => rfl⟩

/-- Witness for C5 at the concrete binary template and dataset. -/
theorem optimize_final_fresh_full_fit_witness :
    ∃ q, optimizeFinal demoPipeline "binary" demoParams demoDataset = .ok q ∧
      q.n_estimators = (demoParams.n_estimators : ℚ) ∧
      q.max_depth = (demoParams.max_depth : ℚ) ∧
      q.reg_alpha = (demoParams.reg_alpha : ℚ) ∧
      q.reg_lambda = (demoParams.reg_lambda : ℚ) ∧
      q.min_child_weight = (demoParams.min_child_weight : ℚ) ∧
      q.gamma = (demoParams.gamma : ℚ) ∧
      q.learning_rate = demoParams.learning_rate ∧
      q.colsample_bytree = demoParams.colsample_bytree ∧
      q.classifier.fitted = some (demoDataset.features, [1, 0]) ∧
      q.modality = demoPipeline.modality ∧
      q.classification_type = demoPipeline.classification_type ∧
      q.classifier.objective = (bestClassifierFor "binary" demoParams).objective ∧
      (∀ c' : Classifier,
        optimizeFinal { demoPipeline with classifier := c' } "binary" demoParams demoDataset =
          optimizeFinal demoPipeline "binary" demoParams demoDataset) :=
  optimize_final_fresh_full_fit demoPipeline "binary" demoParams demoDataset [1, 0] (by decide)

/-- C7: on every study state with at least one completed trial, the best-trial
selection used by the finalizer returns a completed (neither pruned nor
failed) trial whose objective is maximal among the completed trials; a pruned
trial — whose missing objective ranks as the worst value — is never
selected. -/
theorem best_trial_completed_max (trials : List TrialRecord)
    (h : ∃ t, t ∈ trials ∧ t.status = .completed) :
    ∃ b, bestTrial trials = some b ∧ b ∈ trials ∧ b.status = .completed ∧
      b.status ≠ .pruned ∧ b.status ≠ .failed ∧
      ∀ t ∈ trials, t.status = .completed → objVal t ≤ objVal b := by
  obtain ⟨t, ht, hc⟩ := h
  have hmem : t ∈ trials.filter (fun r => r.status = .completed) := by
    simp [List.mem_filter, ht, hc]
  have hne : trials.filter (fun r => r.status = .completed) ≠ [] := List.ne_nil_of_mem hmem
  obtain ⟨b, hb⟩ :
      ∃ b, List.argmax objVal (trials.filter (fun r => r.status = .completed)) = some b := by
    cases hcase : List.argmax objVal (trials.filter (fun r => r.status = .completed)) with
    | none => exact absurd (List.argmax_eq_none.mp hcase) hne
    | some b => exact ⟨b, rfl⟩
  have hbopt : b ∈ List.argmax objVal (trials.filter (fun r => r.status = .completed)) :=
    Option.mem_def.mpr hb
  have hbmem := List.mem_filter.mp (List.argmax_mem hbopt)
  have hbcomp : b.status = .completed := by simpa using hbmem.2
  refine ⟨b, hb, hbmem.1, hbcomp, by simp [hbcomp], by simp [hbcomp], ?_⟩
  intro t' ht' hc'
  exact List.le_of_mem_argmax (by simp [List.mem_filter, ht', hc']) hbopt

/-- Witness for C7: on a study with one completed trial at objective 4/5 and
one pruned trial, the completed one is selected. -/
theorem best_trial_completed_max_witness :
    (∃ t, t ∈ demoTrials ∧ t.status = .completed) ∧
    (∃ b, bestTrial demoTrials = some b ∧ b ∈ demoTrials ∧ b.status = .completed ∧
      b.status ≠ .pruned ∧ b.status ≠ .failed ∧
      ∀ t ∈ demoTrials, t.status = .completed → objVal t ≤ objVal b) :=
  ⟨⟨demoCompleted, by simp [demoTrials], rfl⟩,
   best_trial_completed_max demoTrials ⟨demoCompleted, by simp [demoTrials], rfl⟩⟩

/-- Fitting the pipeline object at one heap address leaves every other
address untouched. -/
lemma fitAt_frame (h : List XGBPipeline) (k j : Nat) (ds : Dataset) (hj : j ≠ k) :
    (fitAt h k ds)[j]? = h[j]? := by
  unfold fitAt
  cases hk : h[k]? with
  | none => rfl
  | some p =>
    cases hs : p.self_optimize ds with
    | ok q =>
      simp only [hs]
      exact List.getElem?_set_ne (Ne.symm hj)
    | error e =>
      simp only [hs]

/-- C8: evaluating a trial operates only on clones. With the template pipeline
object living at heap address `i`, cloning it twice and fitting the first
clone (the second clone sits at address `h.length + 1`): the fresh clone has
the template's hyperparameters with an untrained classifier; after the fit,
the template object is unchanged — hyperparameters and classifier state — and
the second clone's object, hence its predictions, are unchanged too. -/
theorem clone_fit_isolation (h : List XGBPipeline) (i : Nat) (p : XGBPipeline)
    (hp : h[i]? = some p) (ds : Dataset) :
    (cloneAt h i)[h.length]? = some (clonePipeline p) ∧
    (clonePipeline p).classifier.fitted = none ∧
    (clonePipeline p).n_estimators = p.n_estimators ∧
    (clonePipeline p).learning_rate = p.learning_rate ∧
    (fitAt (cloneAt (cloneAt h i) i) h.length ds)[i]? = some p ∧
    (fitAt (cloneAt (cloneAt h i) i) h.length ds)[h.length + 1]? = some (clonePipeline p) ∧
    predictAt (fitAt (cloneAt (cloneAt h i) i) h.length ds) (h.length + 1) =
      predictAt (cloneAt (cloneAt h i) i) (h.length + 1) := by
  have hi : i < h.length := by
    rcases List.getElem?_eq_some.mp hp with ⟨hlt, _⟩
    exact hlt
  have h1 : cloneAt h i = h ++ [clonePipeline p] := by
    unfold cloneAt; rw [hp]
  have hgetclone : (h ++ [clonePipeline p])[h.length]? = some (clonePipeline p) := by
    rw [List.getElem?_append_right (le_refl h.length)]
    simp
  have h2 : cloneAt (cloneAt h i) i = (h ++ [clonePipeline p]) ++ [clonePipeline p] := by
    rw [h1]; unfold cloneAt
    rw [List.getElem?_append_left hi, hp]
  have hlen1 : h.length < (h ++ [clonePipeline p]).length := by simp
  have hget1 : ((h ++ [clonePipeline p]) ++ [clonePipeline p])[h.length]? =
      some (clonePipeline p) := by
    rw [List.getElem?_append_left hlen1]
    exact hgetclone
  have hgeti : ((h ++ [clonePipeline p]) ++ [clonePipeline p])[i]? = some p := by
    rw [List.getElem?_append_left (lt_trans hi hlen1), List.getElem?_append_left hi]
    exact hp
  have hget2 : ((h ++ [clonePipeline p]) ++ [clonePipeline p])[h.length + 1]? =
      some (clonePipeline p) := by
    have : (h ++ [clonePipeline p]).length ≤ h.length + 1 := by simp
    rw [List.getElem?_append_right this]
    simp
  have hfit : ∀ j, j ≠ h.length →
      (fitAt (cloneAt (cloneAt h i) i) h.length ds)[j]? = (cloneAt (cloneAt h i) i)[j]? :=
    fun j hj => fitAt_frame (cloneAt (cloneAt h i) i) h.length j ds hj
  have hne_i : i ≠ h.length := Nat.ne_of_lt hi
  have hne_c2 : h.length + 1 ≠ h.length := by omega
  refine ⟨by rw [h1]; exact hgetclone, rfl, rfl, rfl, ?_, ?_, ?_⟩
  · rw [hfit i hne_i, h2]; exact hgeti
  · rw [hfit (h.length + 1) hne_c2, h2]; exact hget2
  · unfold predictAt
    rw [hfit (h.length + 1) hne_c2]

/-- Witness for C8 on a one-object heap holding the concrete template. -/
theorem clone_fit_isolation_witness :
    (cloneAt [demoPipeline] 0)[1]? = some (clonePipeline demoPipeline) ∧
    (clonePipeline demoPipeline).classifier.fitted = none ∧
    (clonePipeline demoPipeline).n_estimators = demoPipeline.n_estimators ∧
    (clonePipeline demoPipeline).learning_rate = demoPipeline.learning_rate ∧
    (fitAt (cloneAt (cloneAt [demoPipeline] 0) 0) 1 demoDataset)[0]? = some demoPipeline ∧
    (fitAt (cloneAt (cloneAt [demoPipeline] 0) 0) 1 demoDataset)[2]? =
      some (clonePipeline demoPipeline) ∧
    predictAt (fitAt (cloneAt (cloneAt [demoPipeline] 0) 0) 1 demoDataset) 2 =
      predictAt (cloneAt (cloneAt [demoPipeline] 0) 0) 2 :=
  clone_fit_isolation [demoPipeline] 0 demoPipeline rfl demoDataset

end SleepAnalysis
